import Mathlib

/-!
Shallow embedding of the Server-Backend repository (src/index.js, an
Express + Mongoose HTTP server over two MongoDB collections, `employees`
and `vehicles`), together with proofs about the behaviour of its route
handlers.

JavaScript numbers are modelled by `JsNum`: either `nan` (JavaScript's
NaN, for which every ordering comparison returns false and which is
absorbing under addition) or an integer value.  The store is modelled by
`DB`, a list of employee records and a list of vehicle records plus a
model clock supplying `Date.now` / the `timestamps: true` bookkeeping.
Each route handler becomes a pure function from the request data and the
current `DB` to an outcome (mirroring the handler's branch structure
line by line) and the resulting `DB`.
-/

/-- A JavaScript number: NaN or a numeric value (integral, which covers
every value the claims exercise).  `typeof x === 'number'` holds for both. -/
inductive JsNum where
  | nan : JsNum
  | num : Int → JsNum
deriving DecidableEq

namespace JsNum

/-- JavaScript addition `+` on numbers: NaN is absorbing. -/
def add : JsNum → JsNum → JsNum
  | num a, num b => num (a + b)
  | _, _ => nan

/-- The JavaScript comparison `x <= 0`: false whenever `x` is NaN. -/
def le0 : JsNum → Bool
  | nan => false
  | num a => decide (a ≤ 0)

/-- JavaScript sum of a list of numbers (left fold of `+` over 0),
as built up by repeatedly executing `employee.points += points`. -/
def sum (l : List JsNum) : JsNum :=
  l.foldl add (num 0)

end JsNum

/-- A JSON value as delivered by `express.json()` body parsing.
`Option Json` models a possibly-absent object property
(`none` = the property is missing, i.e. `undefined` after destructuring). -/
inductive Json where
  | jnull : Json
  | jbool : Bool → Json
  | jnum : JsNum → Json
  | jstr : String → Json
deriving DecidableEq

/-- One entry of `pointsHistory`: `{ points, reason, date }`
(src/index.js lines 30-36).  `date` is the model clock value. -/
structure PointsEntry where
  points : JsNum
  reason : String
  date : Nat
deriving DecidableEq

/-- A stored employee document (employeeSchema, src/index.js lines 21-39),
with the Mongo `_id` and the `timestamps: true` fields. -/
structure EmployeeRec where
  id : String
  staffNumber : String
  fullName : String
  identityNumber : String
  qualifications : String
  position : String
  salary : JsNum
  contractStatus : String
  points : JsNum
  pointsHistory : List PointsEntry
  academicTraining : List String
  professionalTraining : List String
  createdAt : Nat
  updatedAt : Nat
deriving DecidableEq

/-- A stored vehicle document (vehicleSchema, src/index.js lines 42-48).
`driver` is an optional ObjectId reference to an employee. -/
structure VehicleRec where
  id : String
  vin : String
  model : String
  mileage : JsNum
  driver : Option String
  status : String
  createdAt : Nat
  updatedAt : Nat
deriving DecidableEq

/-- The document store, plus a model clock used for `Date.now` and the
`timestamps: true` bookkeeping during a request. -/
structure DB where
  employees : List EmployeeRec
  vehicles : List VehicleRec
  time : Nat
deriving DecidableEq

/-- `mongoose.Types.ObjectId.isValid`: a 24-character hex string
(or a 12-character string, which mongoose also accepts). -/
def isValidObjectId (s : String) : Bool :=
  (s.length == 24 && s.toList.all (fun c => c.isDigit
      || ('a' ≤ c && c ≤ 'f') || ('A' ≤ c && c ≤ 'F')))
  || s.length == 12

/-- `Employee.findById` / lookup by `_id` in the employees collection. -/
def findEmployee (db : DB) (id : String) : Option EmployeeRec :=
  db.employees.find? (fun e => e.id == id)

/-- Replace the employee document with the given `_id` by `e'`
(the write-back half of a mongoose document `save()`). -/
def replaceEmployee (db : DB) (id : String) (e' : EmployeeRec) : DB :=
  { db with employees := db.employees.map (fun x => if x.id == id then e' else x) }

/-- Outcome of the PATCH `/employees/:id/add-points` handler
(src/index.js lines 119-149). -/
inductive AwardOutcome where
  | invalidId : AwardOutcome
  | badPoints : AwardOutcome
  | badReason : AwardOutcome
  | notFound : AwardOutcome
  | ok : EmployeeRec → AwardOutcome
deriving DecidableEq

/-- HTTP status returned for each branch of the add-points handler. -/
def awardStatus : AwardOutcome → Nat
  | .invalidId => 400
  | .badPoints => 400
  | .badReason => 400
  | .notFound => 404
  | .ok _ => 200

/-- PATCH `/employees/:id/add-points` (src/index.js lines 119-149).
The body is destructured into `points` and `reason` (each possibly
absent).  Checks, in the handler's order: `ObjectId.isValid(id)`;
`typeof points !== 'number' || points <= 0`;
`!reason || typeof reason !== 'string'`; then `findById`, the in-memory
mutation `points += points; pointsHistory.push({points, reason, date})`,
and `save()`. -/
def addPoints (db : DB) (id : String) (points reason : Option Json) :
    AwardOutcome × DB :=
  if !(isValidObjectId id) then (.invalidId, db)
  else
    match points with
    | some (Json.jnum p) =>
      if p.le0 then (.badPoints, db)
      else
        match reason with
        | some (Json.jstr r) =>
          if r == "" then (.badReason, db)
          else
            match findEmployee db id with
            | none => (.notFound, db)
            | some e =>
              let e' := { e with
                points := e.points.add p,
                pointsHistory := e.pointsHistory ++ [⟨p, r, db.time⟩],
                updatedAt := db.time }
              (.ok e', replaceEmployee db id e')
        | _ => (.badReason, db)
    | _ => (.badPoints, db)

/-- The request body of POST `/employees` as typed data: each schema path
either present or absent (`new Employee(req.body)` fills defaults for the
absent ones). -/
structure EmployeePayload where
  staffNumber : Option String := none
  fullName : Option String := none
  identityNumber : Option String := none
  qualifications : Option String := none
  position : Option String := none
  salary : Option JsNum := none
  contractStatus : Option String := none
  points : Option JsNum := none
  pointsHistory : Option (List PointsEntry) := none
  academicTraining : Option (List String) := none
  professionalTraining : Option (List String) := none
deriving DecidableEq

/-- Mongoose `required: true` for a String path: fails when the value is
absent and also when it is the empty string. -/
def requiredString : Option String → Bool
  | some s => !(s == "")
  | none => false

/-- Mongoose document validation run by `newEmployee.save()`: the six
`required: true` paths of employeeSchema, the `contractStatus` enum, and
the `required` paths of embedded `pointsHistory` entries. -/
def employeeValid (p : EmployeePayload) : Bool :=
  requiredString p.staffNumber && requiredString p.fullName
    && requiredString p.identityNumber && requiredString p.qualifications
    && requiredString p.position && p.salary.isSome
    && (match p.contractStatus with
        | none => true
        | some s => s == "active" || s == "terminated")
    && (p.pointsHistory.getD []).all (fun en => !(en.reason == ""))

/-- Outcome of POST `/employees` (src/index.js lines 68-80). -/
inductive CreateOutcome where
  | validationError : CreateOutcome
  | duplicateKey : CreateOutcome
  | created : EmployeeRec → CreateOutcome
deriving DecidableEq

/-- HTTP status of each POST `/employees` branch: the catch block maps
only the duplicate-key signal (`error.code === 11000`) to 400; a mongoose
ValidationError carries no such code, so it falls through to the generic
500 response (src/index.js lines 73-79). -/
def createStatus : CreateOutcome → Nat
  | .validationError => 500
  | .duplicateKey => 400
  | .created _ => 201

/-- POST `/employees` (src/index.js lines 68-80): `new Employee(req.body)`
then `save()`.  Validation runs before the insert; a duplicate
`staffNumber` trips the unique index (error 11000); otherwise the document
is persisted with a fresh `_id` (`newId`) and timestamps. -/
def createEmployee (db : DB) (p : EmployeePayload) (newId : String) :
    CreateOutcome × DB :=
  if !(employeeValid p) then (.validationError, db)
  else if db.employees.any (fun e => e.staffNumber == p.staffNumber.getD "") then
    (.duplicateKey, db)
  else
    let e : EmployeeRec := {
      id := newId
      staffNumber := p.staffNumber.getD ""
      fullName := p.fullName.getD ""
      identityNumber := p.identityNumber.getD ""
      qualifications := p.qualifications.getD ""
      position := p.position.getD ""
      salary := p.salary.getD (.num 0)
      contractStatus := p.contractStatus.getD "active"
      points := p.points.getD (.num 0)
      pointsHistory := p.pointsHistory.getD []
      academicTraining := p.academicTraining.getD []
      professionalTraining := p.professionalTraining.getD []
      createdAt := db.time
      updatedAt := db.time }
    (.created e, { db with employees := db.employees ++ [e] })

/-- The request body of PUT `/employees/:id`: a partial employee document;
absent paths are left untouched by `findByIdAndUpdate`. -/
structure UpdatePayload where
  staffNumber : Option String := none
  fullName : Option String := none
  identityNumber : Option String := none
  qualifications : Option String := none
  position : Option String := none
  salary : Option JsNum := none
  contractStatus : Option String := none
  points : Option JsNum := none
  pointsHistory : Option (List PointsEntry) := none
  academicTraining : Option (List String) := none
  professionalTraining : Option (List String) := none
deriving DecidableEq

/-- The field-wise effect of `Employee.findByIdAndUpdate(id, req.body)`
(src/index.js line 89): each supplied path is `$set`, the rest keep their
stored value; `timestamps: true` refreshes `updatedAt`.  No schema
validators run (`runValidators` defaults to false). -/
def applyUpdate (e : EmployeeRec) (p : UpdatePayload) (now : Nat) : EmployeeRec :=
  { e with
    staffNumber := p.staffNumber.getD e.staffNumber
    fullName := p.fullName.getD e.fullName
    identityNumber := p.identityNumber.getD e.identityNumber
    qualifications := p.qualifications.getD e.qualifications
    position := p.position.getD e.position
    salary := p.salary.getD e.salary
    contractStatus := p.contractStatus.getD e.contractStatus
    points := p.points.getD e.points
    pointsHistory := p.pointsHistory.getD e.pointsHistory
    academicTraining := p.academicTraining.getD e.academicTraining
    professionalTraining := p.professionalTraining.getD e.professionalTraining
    updatedAt := now }

/-- Outcome of PUT `/employees/:id` (src/index.js lines 83-98). -/
inductive UpdateOutcome where
  | invalidId : UpdateOutcome
  | notFound : UpdateOutcome
  | ok : EmployeeRec → UpdateOutcome
deriving DecidableEq

/-- HTTP status of each PUT `/employees/:id` branch. -/
def updateStatus : UpdateOutcome → Nat
  | .invalidId => 400
  | .notFound => 404
  | .ok _ => 200

/-- PUT `/employees/:id` (src/index.js lines 83-98): reject a malformed id
before touching the store, 404 when no document matches, otherwise apply
the payload (`new: true` returns the updated document). -/
def updateEmployee (db : DB) (id : String) (p : UpdatePayload) :
    UpdateOutcome × DB :=
  if !(isValidObjectId id) then (.invalidId, db)
  else
    match findEmployee db id with
    | none => (.notFound, db)
    | some e =>
      let e' := applyUpdate e p db.time
      (.ok e', replaceEmployee db id e')

/-- Outcome of DELETE `/employees/:id` (src/index.js lines 101-116). -/
inductive DeleteOutcome where
  | invalidId : DeleteOutcome
  | notFound : DeleteOutcome
  | deleted : EmployeeRec → DeleteOutcome
deriving DecidableEq

/-- HTTP status of each DELETE `/employees/:id` branch. -/
def deleteStatus : DeleteOutcome → Nat
  | .invalidId => 400
  | .notFound => 404
  | .deleted _ => 200

/-- DELETE `/employees/:id` (src/index.js lines 101-116): id validation,
then `Employee.findByIdAndDelete(id)`, which removes the matching
document (`_id` is unique in the store). -/
def deleteEmployee (db : DB) (id : String) : DeleteOutcome × DB :=
  if !(isValidObjectId id) then (.invalidId, db)
  else
    match findEmployee db id with
    | none => (.notFound, db)
    | some e =>
      (.deleted e, { db with employees := db.employees.eraseP (fun x => x.id == id) })

/-- The request body of POST `/vehicles` as typed data. -/
structure VehiclePayload where
  vin : Option String := none
  model : Option String := none
  mileage : Option JsNum := none
  driver : Option String := none
  status : Option String := none
deriving DecidableEq

/-- Mongoose validation/casting for `new Vehicle(req.body).save()`:
the three `required: true` paths, the `status` enum, and the ObjectId
cast of a supplied `driver` reference (which is NOT checked to point at
an existing employee — referential integrity is advisory). -/
def vehicleValid (p : VehiclePayload) : Bool :=
  requiredString p.vin && requiredString p.model && p.mileage.isSome
    && (match p.status with
        | none => true
        | some s => s == "available" || s == "in use" || s == "sold" || s == "on service")
    && (match p.driver with
        | none => true
        | some d => isValidObjectId d)

/-- Outcome of POST `/vehicles` (src/index.js lines 163-175). -/
inductive VehicleCreateOutcome where
  | validationError : VehicleCreateOutcome
  | duplicateKey : VehicleCreateOutcome
  | created : VehicleRec → VehicleCreateOutcome
deriving DecidableEq

/-- HTTP status of each POST `/vehicles` branch: as for employees, only
`error.code === 11000` maps to 400; everything else is 500. -/
def vehicleCreateStatus : VehicleCreateOutcome → Nat
  | .validationError => 500
  | .duplicateKey => 400
  | .created _ => 201

/-- POST `/vehicles` (src/index.js lines 163-175): validate, trip the
unique `vin` index on a duplicate, otherwise persist. -/
def createVehicle (db : DB) (p : VehiclePayload) (newId : String) :
    VehicleCreateOutcome × DB :=
  if !(vehicleValid p) then (.validationError, db)
  else if db.vehicles.any (fun v => v.vin == p.vin.getD "") then
    (.duplicateKey, db)
  else
    let v : VehicleRec := {
      id := newId
      vin := p.vin.getD ""
      model := p.model.getD ""
      mileage := p.mileage.getD (.num 0)
      driver := p.driver
      status := p.status.getD "available"
      createdAt := db.time
      updatedAt := db.time }
    (.created v, { db with vehicles := db.vehicles ++ [v] })

/-- A vehicle as returned by GET `/vehicles` after
`.populate('driver', 'fullName')`: the `driver` path is replaced by the
referenced employee's `{_id, fullName}` projection, or by null when the
reference is absent or matches no employee. -/
structure PopulatedVehicle where
  id : String
  vin : String
  model : String
  mileage : JsNum
  driver : Option (String × String)
  status : String
  createdAt : Nat
  updatedAt : Nat
deriving DecidableEq

/-- `.populate('driver', 'fullName')` on one vehicle document. -/
def populateDriver (db : DB) (v : VehicleRec) : PopulatedVehicle :=
  { id := v.id
    vin := v.vin
    model := v.model
    mileage := v.mileage
    driver := match v.driver with
      | none => none
      | some d => (findEmployee db d).map (fun e => (e.id, e.fullName))
    status := v.status
    createdAt := v.createdAt
    updatedAt := v.updatedAt }

/-- GET `/vehicles` (src/index.js lines 152-160):
`Vehicle.find().populate('driver', 'fullName')`. -/
def listVehicles (db : DB) : List PopulatedVehicle :=
  db.vehicles.map (populateDriver db)

/-- The write half of the add-points handler in isolation: `save()` after
the in-memory mutation (src/index.js lines 139-142).  Mongoose computes a
minimal delta from the snapshot read by `findById`: it issues
`$set {points: newPoints}` — the ABSOLUTE value computed from the
snapshot — together with `$push {pointsHistory: entry}`, applied to the
document currently in the store. -/
def addPointsSave (db : DB) (id : String) (newPoints : JsNum)
    (entry : PointsEntry) : DB :=
  { db with employees := db.employees.map (fun x =>
      if x.id == id then
        { x with
          points := newPoints
          pointsHistory := x.pointsHistory ++ [entry]
          updatedAt := db.time }
      else x) }

/-- Two concurrent PATCH `/employees/:id/add-points` requests to the same
employee, interleaved read₁, read₂, write₁, write₂: both handlers execute
`findById` (line 134) against the same store state, then both execute
their `save()` (line 142).  Each `save` sets `points` to the value
computed from its own stale snapshot and pushes its history entry. -/
def addPointsRace (db : DB) (id : String) (p1 p2 : JsNum)
    (r1 r2 : String) : DB :=
  match findEmployee db id, findEmployee db id with
  | some e1, some e2 =>
    let db1 := addPointsSave db id (e1.points.add p1) ⟨p1, r1, db.time⟩
    addPointsSave db1 id (e2.points.add p2) ⟨p2, r2, db1.time⟩
  | _, _ => db

/-- A sequence of add-points calls run back to back (each request body is
a points delta and a reason), as in the spec's award-sequence property. -/
def runAwards (db : DB) (id : String) (calls : List (Int × String)) : DB :=
  calls.foldl
    (fun d c => (addPoints d id (some (.jnum (.num c.1))) (some (.jstr c.2))).2)
    db

/-! ## Concrete test fixtures

Concrete store states used to instantiate the theorems below, mirroring
the spec's running example (`staffNumber "E001"`, salary 1000, a fresh
employee with 0 points and an empty history). -/

/-- A well-formed 24-hex-character ObjectId. -/
def empId : String := "aaaaaaaaaaaaaaaaaaaaaaaa"

/-- A second, distinct well-formed ObjectId. -/
def empId2 : String := "bbbbbbbbbbbbbbbbbbbbbbbb"

/-- A freshly created employee: 0 points, empty points history. -/
def freshEmployee : EmployeeRec :=
  { id := empId
    staffNumber := "E001"
    fullName := "A"
    identityNumber := "1"
    qualifications := "BSc"
    position := "Clerk"
    salary := .num 1000
    contractStatus := "active"
    points := .num 0
    pointsHistory := []
    academicTraining := []
    professionalTraining := []
    createdAt := 0
    updatedAt := 0 }

/-- A second stored employee, used for frame and populate checks. -/
def secondEmployee : EmployeeRec :=
  { freshEmployee with id := empId2, staffNumber := "E002", fullName := "Alice" }

/-- A vehicle whose `driver` references `secondEmployee`. -/
def sampleVehicle : VehicleRec :=
  { id := "cccccccccccccccccccccccc"
    vin := "VIN1"
    model := "Truck"
    mileage := .num 100
    driver := some empId2
    status := "available"
    createdAt := 0
    updatedAt := 0 }

/-- A vehicle with no driver reference. -/
def driverlessVehicle : VehicleRec :=
  { sampleVehicle with id := "dddddddddddddddddddddddd", vin := "VIN2", driver := none }

/-- A sample store with two employees and two vehicles. -/
def sampleDB : DB :=
  { employees := [freshEmployee, secondEmployee]
    vehicles := [sampleVehicle, driverlessVehicle]
    time := 7 }

/-! ## Helper lemmas -/

theorem replaceEmployee_time (db : DB) (id : String) (e' : EmployeeRec) :
    (replaceEmployee db id e').time = db.time := rfl

theorem replaceEmployee_vehicles (db : DB) (id : String) (e' : EmployeeRec) :
    (replaceEmployee db id e').vehicles = db.vehicles := rfl

theorem find?_map_update (l : List EmployeeRec) (id : String) (e e' : EmployeeRec)
    (hid : e'.id = id)
    (hf : l.find? (fun x => x.id == id) = some e) :
    (l.map (fun x => if x.id == id then e' else x)).find? (fun x => x.id == id)
      = some e' := by
  induction l with
  | nil => simp at hf
  | cons a t ih =>
    simp only [List.map_cons]
    by_cases h : (a.id == id) = true
    · rw [List.find?_cons_of_pos]
      · simp [h]
      · simp [h, hid]
    · rw [List.find?_cons_of_neg]
      · rw [List.find?_cons_of_neg _ (by simp [h])] at hf
        exact ih hf
      · simp [h]

theorem findEmployee_replaceEmployee (db : DB) (id : String) (e e' : EmployeeRec)
    (hf : findEmployee db id = some e) (hid : e'.id = id) :
    findEmployee (replaceEmployee db id e') id = some e' :=
  find?_map_update db.employees id e e' hid hf

/-- Characterisation of the success branch of the add-points handler. -/
theorem addPoints_ok (db : DB) (id : String) (p : Int) (r : String)
    (e : EmployeeRec)
    (hid : isValidObjectId id = true)
    (hf : findEmployee db id = some e)
    (hp : 0 < p) (hr : r ≠ "") :
    addPoints db id (some (.jnum (.num p))) (some (.jstr r)) =
      (.ok { e with
              points := e.points.add (.num p),
              pointsHistory := e.pointsHistory ++ [⟨.num p, r, db.time⟩],
              updatedAt := db.time },
       replaceEmployee db id { e with
              points := e.points.add (.num p),
              pointsHistory := e.pointsHistory ++ [⟨.num p, r, db.time⟩],
              updatedAt := db.time }) := by
  have hle : (JsNum.num p).le0 = false := by
    simp [JsNum.le0]; omega
  have hrb : (r == "") = false := by
    simpa using hr
  simp only [addPoints, hid, Bool.not_true, Bool.false_eq_true, if_false,
    hle, hrb, hf]

/-! ## C2: successful award -/

/-- C2: for every award-points request with a well-formed identifier
matching an existing employee, a positive numeric points delta and a
non-empty string reason, the handler succeeds with status 200, increments
the stored points total by exactly the delta, appends exactly one entry
`{delta, reason, current timestamp}` to the points history, and returns
the updated record (which is exactly what the store now holds). -/
theorem awardPoints_success_spec (db : DB) (id : String) (p : Int)
    (r : String) (e : EmployeeRec)
    (hid : isValidObjectId id = true)
    (hf : findEmployee db id = some e)
    (hp : 0 < p) (hr : r ≠ "") :
    ∃ e', addPoints db id (some (.jnum (.num p))) (some (.jstr r))
        = (.ok e', replaceEmployee db id e')
      ∧ awardStatus (addPoints db id (some (.jnum (.num p))) (some (.jstr r))).1 = 200
      ∧ e'.points = e.points.add (.num p)
      ∧ e'.pointsHistory = e.pointsHistory ++ [⟨.num p, r, db.time⟩]
      ∧ findEmployee (addPoints db id (some (.jnum (.num p))) (some (.jstr r))).2 id
          = some e' := by
  have h := addPoints_ok db id p r e hid hf hp hr
  have hf' : db.employees.find? (fun x => x.id == id) = some e := hf
  have hid' : e.id = id := by simpa using List.find?_some hf'
  refine ⟨_, h, ?_, rfl, rfl, ?_⟩
  · rw [h]
    rfl
  · rw [h]
    exact findEmployee_replaceEmployee db id e _ hf hid'

/-- Witness for C2: the spec's running example — award 5 points with
reason "good work" to a fresh employee; status 200, points 5, history
length 1. -/
theorem awardPoints_success_witness :
    ∃ e', addPoints sampleDB empId (some (.jnum (.num 5))) (some (.jstr "good work"))
        = (.ok e', replaceEmployee sampleDB empId e')
      ∧ awardStatus (addPoints sampleDB empId (some (.jnum (.num 5))) (some (.jstr "good work"))).1 = 200
      ∧ e'.points = (JsNum.num 0).add (.num 5)
      ∧ e'.pointsHistory = [⟨.num 5, "good work", 7⟩]
      ∧ findEmployee (addPoints sampleDB empId (some (.jnum (.num 5))) (some (.jstr "good work"))).2 empId
          = some e' := by
  have h := awardPoints_success_spec sampleDB empId 5 "good work" freshEmployee
    (by decide) (by decide) (by decide) (by decide)
  simpa [freshEmployee] using h

/-! ## C1: award sequences are additive and history-preserving -/

theorem foldl_award_points (calls : List (Int × String)) :
    ∀ q : Int, calls.foldl (fun a c => a.add (JsNum.num c.1)) (JsNum.num q)
      = JsNum.num (q + (calls.map Prod.fst).sum) := by
  induction calls with
  | nil => intro q; simp
  | cons c cs ih =>
    intro q
    have hstep : (c :: cs).foldl (fun a c => a.add (JsNum.num c.1)) (JsNum.num q)
        = cs.foldl (fun a c => a.add (JsNum.num c.1)) (JsNum.num (q + c.1)) := rfl
    rw [hstep, ih]
    simp only [List.map_cons, List.sum_cons]
    congr 1
    ring

theorem runAwards_spec (id : String) (hid : isValidObjectId id = true)
    (calls : List (Int × String)) :
    ∀ (db : DB) (e : EmployeeRec),
      findEmployee db id = some e →
      (∀ c ∈ calls, 0 < c.1 ∧ c.2 ≠ "") →
      ∃ e', findEmployee (runAwards db id calls) id = some e'
        ∧ e'.points = calls.foldl (fun a c => a.add (JsNum.num c.1)) e.points
        ∧ e'.pointsHistory = e.pointsHistory
            ++ calls.map (fun c => (⟨JsNum.num c.1, c.2, db.time⟩ : PointsEntry)) := by
  induction calls with
  | nil =>
    intro db e hf _
    exact ⟨e, hf, rfl, by simp⟩
  | cons c cs ih =>
    intro db e hf hcs
    obtain ⟨hp, hr⟩ := hcs c (List.mem_cons_self c cs)
    have h := addPoints_ok db id c.1 c.2 e hid hf hp hr
    have hf' : db.employees.find? (fun x => x.id == id) = some e := hf
    have hid' : e.id = id := by simpa using List.find?_some hf'
    have hnew := findEmployee_replaceEmployee db id e
      { e with
        points := e.points.add (.num c.1),
        pointsHistory := e.pointsHistory ++ [⟨.num c.1, c.2, db.time⟩],
        updatedAt := db.time } hf hid'
    obtain ⟨e'', hfind, hpts, hhist⟩ := ih
      (replaceEmployee db id
        { e with
          points := e.points.add (.num c.1),
          pointsHistory := e.pointsHistory ++ [⟨.num c.1, c.2, db.time⟩],
          updatedAt := db.time }) _ hnew
      (fun c' hc' => hcs c' (List.mem_cons_of_mem _ hc'))
    have hstep : runAwards db id (c :: cs)
        = runAwards (replaceEmployee db id
            { e with
              points := e.points.add (.num c.1),
              pointsHistory := e.pointsHistory ++ [⟨.num c.1, c.2, db.time⟩],
              updatedAt := db.time }) id cs := by
      show runAwards ((addPoints db id (some (.jnum (.num c.1))) (some (.jstr c.2))).2) id cs = _
      rw [h]
    refine ⟨e'', ?_, ?_, ?_⟩
    · rw [hstep]; exact hfind
    · simpa using hpts
    · have hhist' : e''.pointsHistory
          = (e.pointsHistory ++ [(⟨JsNum.num c.1, c.2, db.time⟩ : PointsEntry)])
            ++ cs.map (fun c' => (⟨JsNum.num c'.1, c'.2, db.time⟩ : PointsEntry)) := by
        simpa [replaceEmployee] using hhist
      rw [hhist', List.append_assoc, List.singleton_append]
      simp

/-- C1: starting from a freshly created employee (0 points, empty
history), any sequence of successful award calls `(p1,r1), (p2,r2), ...`
leaves the stored points total equal to `p1 + p2 + ...`, with exactly one
points-history entry per call, in call order. -/
theorem award_sequence_invariant (db : DB) (id : String) (e : EmployeeRec)
    (calls : List (Int × String))
    (hid : isValidObjectId id = true)
    (hf : findEmployee db id = some e)
    (hfresh : e.points = .num 0 ∧ e.pointsHistory = [])
    (hok : ∀ c ∈ calls, 0 < c.1 ∧ c.2 ≠ "") :
    ∃ e', findEmployee (runAwards db id calls) id = some e'
      ∧ e'.points = .num ((calls.map Prod.fst).sum)
      ∧ e'.pointsHistory.length = calls.length
      ∧ e'.pointsHistory.map (fun en => (en.points, en.reason))
          = calls.map (fun c => (JsNum.num c.1, c.2)) := by
  obtain ⟨hp0, hh0⟩ := hfresh
  obtain ⟨e', hfind, hpts, hhist⟩ := runAwards_spec id hid calls db e hf hok
  refine ⟨e', hfind, ?_, ?_, ?_⟩
  · rw [hpts, hp0, foldl_award_points]
    simp
  · rw [hhist, hh0]
    simp
  · rw [hhist, hh0]
    simp

/-- Witness for C1: two awards (5, then 3) to a fresh employee yield
points 8 and a two-entry history in call order. -/
theorem award_sequence_invariant_witness :
    ∃ e', findEmployee (runAwards sampleDB empId [(5, "good work"), (3, "teamwork")]) empId
        = some e'
      ∧ e'.points = .num 8
      ∧ e'.pointsHistory.length = 2
      ∧ e'.pointsHistory.map (fun en => (en.points, en.reason))
          = [(JsNum.num 5, "good work"), (JsNum.num 3, "teamwork")] := by
  have h := award_sequence_invariant sampleDB empId freshEmployee
    [(5, "good work"), (3, "teamwork")] (by decide) (by decide)
    ⟨rfl, rfl⟩ (by decide)
  simpa using h

/-! ## C3: create with missing required fields -/

/-- C3 counterexample: a create request missing the required `fullName`
(all other required fields present) is rejected with HTTP 500, not the
claimed 400 — the catch block maps only `error.code === 11000` to 400 and
a mongoose ValidationError falls through to the generic 500.  No record
is persisted. -/
theorem createEmployee_missing_field_counterexample :
    createStatus (createEmployee ⟨[], [], 0⟩
      { staffNumber := some "E001", identityNumber := some "1",
        qualifications := some "BSc", position := some "Clerk",
        salary := some (.num 1000) } empId).1 = 500
    ∧ createStatus (createEmployee ⟨[], [], 0⟩
      { staffNumber := some "E001", identityNumber := some "1",
        qualifications := some "BSc", position := some "Clerk",
        salary := some (.num 1000) } empId).1 ≠ 400
    ∧ (createEmployee ⟨[], [], 0⟩
      { staffNumber := some "E001", identityNumber := some "1",
        qualifications := some "BSc", position := some "Clerk",
        salary := some (.num 1000) } empId).2 = ⟨[], [], 0⟩ := by
  decide

/-- C3 (amended): a create request missing any required field is rejected
by mongoose validation before anything is persisted (the store is
unchanged), but the response status is 500, not 400: only duplicate-key
errors are mapped to 400 by the handler. -/
theorem createEmployee_missing_required (db : DB) (p : EmployeePayload)
    (nid : String)
    (h : p.staffNumber = none ∨ p.fullName = none ∨ p.identityNumber = none
       ∨ p.qualifications = none ∨ p.position = none ∨ p.salary = none) :
    createEmployee db p nid = (.validationError, db)
    ∧ createStatus (createEmployee db p nid).1 = 500 := by
  have hv : employeeValid p = false := by
    rcases h with h | h | h | h | h | h <;>
      simp [employeeValid, requiredString, h]
  have h1 : createEmployee db p nid = (.validationError, db) := by
    unfold createEmployee
    rw [hv]
    rfl
  refine ⟨h1, ?_⟩
  rw [h1]
  rfl

/-- Witness for the amended C3: a payload carrying only a staff number is
rejected with 500 and the (empty) store is unchanged. -/
theorem createEmployee_missing_required_witness :
    createEmployee ⟨[], [], 0⟩ { staffNumber := some "E001" } empId
      = (.validationError, ⟨[], [], 0⟩)
    ∧ createStatus (createEmployee ⟨[], [], 0⟩ { staffNumber := some "E001" } empId).1
      = 500 :=
  createEmployee_missing_required ⟨[], [], 0⟩ { staffNumber := some "E001" } empId
    (Or.inr (Or.inl rfl))

/-! ## C4: validation of the award request body -/

/-- C4 (code-bug exhibit): a NaN points value slips through the handler's
guard — `typeof NaN === 'number'` holds and `NaN <= 0` is false — so the
request is NOT rejected: it returns 200 and corrupts the stored points
total to NaN while still appending a history entry. -/
theorem addPoints_nan_not_rejected :
    awardStatus (addPoints sampleDB empId (some (.jnum .nan)) (some (.jstr "x"))).1 = 200
    ∧ findEmployee (addPoints sampleDB empId (some (.jnum .nan)) (some (.jstr "x"))).2 empId
        = some { freshEmployee with
                 points := .nan,
                 pointsHistory := [⟨.nan, "x", 7⟩],
                 updatedAt := 7 } := by
  decide

/-! ## C5: the award write is not a single atomic update -/

/-- C5 (code-bug exhibit): the handler is `findById` followed by `save()`
— two store round trips, not one atomic update.  Interleaving two
concurrent 5-point awards as read₁ read₂ write₁ write₂ loses the first
increment: the final stored points total is 5 while the history holds two
entries summing to 10, so the total diverges from the history log. -/
theorem addPoints_race_lost_update :
    (findEmployee (addPointsRace sampleDB empId (.num 5) (.num 5) "A" "B") empId).map
        (fun e => (e.points, JsNum.sum (e.pointsHistory.map (fun en => en.points))))
      = some (.num 5, .num 10)
    ∧ (JsNum.num 5 : JsNum) ≠ .num 10 := by
  decide

/-! ## C6: duplicate staff number / VIN -/

/-- C6: creating an employee whose staff number is already stored, or a
vehicle whose VIN is already stored, is rejected via the duplicate-key
signal with HTTP 400 and leaves the store (hence the original record)
unmodified.  (The payload is otherwise valid, so the duplicate-key path
is the one taken.) -/
theorem create_duplicate_conflict :
    (∀ (db : DB) (p : EmployeePayload) (nid : String) (e : EmployeeRec),
      employeeValid p = true → e ∈ db.employees →
      e.staffNumber = p.staffNumber.getD "" →
      createEmployee db p nid = (.duplicateKey, db)
        ∧ createStatus (createEmployee db p nid).1 = 400)
    ∧ (∀ (db : DB) (p : VehiclePayload) (nid : String) (v : VehicleRec),
      vehicleValid p = true → v ∈ db.vehicles →
      v.vin = p.vin.getD "" →
      createVehicle db p nid = (.duplicateKey, db)
        ∧ vehicleCreateStatus (createVehicle db p nid).1 = 400) := by
  constructor
  · intro db p nid e hv he hsn
    have hdup : db.employees.any (fun x => x.staffNumber == p.staffNumber.getD "")
        = true := by
      rw [List.any_eq_true]
      exact ⟨e, he, by simp [hsn]⟩
    have h1 : createEmployee db p nid = (.duplicateKey, db) := by
      unfold createEmployee
      rw [hv, hdup]
      rfl
    refine ⟨h1, ?_⟩
    rw [h1]
    rfl
  · intro db p nid v hv hm hvin
    have hdup : db.vehicles.any (fun x => x.vin == p.vin.getD "") = true := by
      rw [List.any_eq_true]
      exact ⟨v, hm, by simp [hvin]⟩
    have h1 : createVehicle db p nid = (.duplicateKey, db) := by
      unfold createVehicle
      rw [hv, hdup]
      rfl
    refine ⟨h1, ?_⟩
    rw [h1]
    rfl

/-- Witness for C6: re-creating staff number "E001" and VIN "VIN1" on the
sample store yields the duplicate-key rejection and no store change. -/
theorem create_duplicate_conflict_witness :
    createEmployee sampleDB
      { staffNumber := some "E001", fullName := some "B",
        identityNumber := some "2", qualifications := some "MSc",
        position := some "Driver", salary := some (.num 500) } empId2
      = (.duplicateKey, sampleDB)
    ∧ createVehicle sampleDB
      { vin := some "VIN1", model := some "Car", mileage := some (.num 5) } empId2
      = (.duplicateKey, sampleDB) :=
  ⟨(create_duplicate_conflict.1 sampleDB
      { staffNumber := some "E001", fullName := some "B",
        identityNumber := some "2", qualifications := some "MSc",
        position := some "Driver", salary := some (.num 500) } empId2
      freshEmployee (by decide) (by decide) (by decide)).1,
   (create_duplicate_conflict.2 sampleDB
      { vin := some "VIN1", model := some "Car", mileage := some (.num 5) } empId2
      sampleVehicle (by decide) (by decide) (by decide)).1⟩

/-! ## C7: update and delete error handling -/

theorem find?_eraseP_of_countP_le_one (l : List EmployeeRec) (id : String)
    (hu : l.countP (fun x => x.id == id) ≤ 1) :
    (l.eraseP (fun x => x.id == id)).find? (fun x => x.id == id) = none := by
  induction l with
  | nil => simp
  | cons a t ih =>
    by_cases h : (a.id == id) = true
    · rw [List.eraseP_cons_of_pos (p := fun x : EmployeeRec => x.id == id) h]
      have ht : t.countP (fun x => x.id == id) = 0 := by
        rw [List.countP_cons_of_pos (fun x : EmployeeRec => x.id == id) t h] at hu
        omega
      rw [List.find?_eq_none]
      intro x hx
      have hnx := (List.countP_eq_zero.mp ht) x hx
      simpa using hnx
    · rw [List.eraseP_cons_of_neg (p := fun x : EmployeeRec => x.id == id) h]
      rw [List.find?_cons_of_neg _ (by simp [h])]
      apply ih
      rw [List.countP_cons_of_neg (fun x : EmployeeRec => x.id == id) t h] at hu
      exact hu

/-- C7: for the employee update and delete handlers, a malformed
identifier yields the 400 invalid-identifier rejection with the store
untouched (for every store, i.e. before any store access); a well-formed
identifier matching no record yields 404 with the store untouched;
otherwise the update applies the supplied fields and returns (and
stores) the updated record, and the delete removes the record (the id no
longer resolves, given that `_id` is unique as in MongoDB) and returns a
200 confirmation. -/
theorem updateDelete_spec (db : DB) (id : String) (p : UpdatePayload) :
    (isValidObjectId id = false →
      updateEmployee db id p = (.invalidId, db)
      ∧ deleteEmployee db id = (.invalidId, db)
      ∧ updateStatus (updateEmployee db id p).1 = 400
      ∧ deleteStatus (deleteEmployee db id).1 = 400)
    ∧ (isValidObjectId id = true → findEmployee db id = none →
      updateEmployee db id p = (.notFound, db)
      ∧ deleteEmployee db id = (.notFound, db)
      ∧ updateStatus (updateEmployee db id p).1 = 404
      ∧ deleteStatus (deleteEmployee db id).1 = 404)
    ∧ (∀ e, isValidObjectId id = true → findEmployee db id = some e →
      updateEmployee db id p
        = (.ok (applyUpdate e p db.time),
           replaceEmployee db id (applyUpdate e p db.time))
      ∧ updateStatus (updateEmployee db id p).1 = 200
      ∧ findEmployee (updateEmployee db id p).2 id = some (applyUpdate e p db.time)
      ∧ deleteEmployee db id
        = (.deleted e,
           { db with employees := db.employees.eraseP (fun x => x.id == id) })
      ∧ deleteStatus (deleteEmployee db id).1 = 200
      ∧ (db.employees.countP (fun x => x.id == id) ≤ 1 →
          findEmployee (deleteEmployee db id).2 id = none)) := by
  refine ⟨?_, ?_, ?_⟩
  · intro h
    have hu : updateEmployee db id p = (.invalidId, db) := by
      unfold updateEmployee
      rw [h]
      rfl
    have hd : deleteEmployee db id = (.invalidId, db) := by
      unfold deleteEmployee
      rw [h]
      rfl
    exact ⟨hu, hd, by rw [hu]; rfl, by rw [hd]; rfl⟩
  · intro h hn
    have hu : updateEmployee db id p = (.notFound, db) := by
      unfold updateEmployee
      rw [h, hn]
      rfl
    have hd : deleteEmployee db id = (.notFound, db) := by
      unfold deleteEmployee
      rw [h, hn]
      rfl
    exact ⟨hu, hd, by rw [hu]; rfl, by rw [hd]; rfl⟩
  · intro e h hf
    have hf' : db.employees.find? (fun x => x.id == id) = some e := hf
    have hid' : e.id = id := by simpa using List.find?_some hf'
    have hu : updateEmployee db id p
        = (.ok (applyUpdate e p db.time),
           replaceEmployee db id (applyUpdate e p db.time)) := by
      unfold updateEmployee
      rw [h, hf]
      rfl
    have hd : deleteEmployee db id
        = (.deleted e,
           { db with employees := db.employees.eraseP (fun x => x.id == id) }) := by
      unfold deleteEmployee
      rw [h, hf]
      rfl
    refine ⟨hu, by rw [hu]; rfl, ?_, hd, by rw [hd]; rfl, ?_⟩
    · rw [hu]
      exact findEmployee_replaceEmployee db id e _ hf hid'
    · intro hcount
      rw [hd]
      exact find?_eraseP_of_countP_le_one db.employees id hcount

/-- Witness for C7: on the sample store, a malformed id is rejected with
400, an unknown well-formed id with 404, a matching id is updated and
returned, and after a delete the id no longer resolves. -/
theorem updateDelete_spec_witness :
    updateEmployee sampleDB "zz" {} = (.invalidId, sampleDB)
    ∧ deleteEmployee sampleDB "ffffffffffffffffffffffff" = (.notFound, sampleDB)
    ∧ updateEmployee sampleDB empId {}
        = (.ok (applyUpdate freshEmployee {} sampleDB.time),
           replaceEmployee sampleDB empId (applyUpdate freshEmployee {} sampleDB.time))
    ∧ findEmployee (deleteEmployee sampleDB empId).2 empId = none := by
  refine ⟨((updateDelete_spec sampleDB "zz" {}).1 (by decide)).1,
          ((updateDelete_spec sampleDB "ffffffffffffffffffffffff" {}).2.1
            (by decide) (by decide)).2.1,
          ((updateDelete_spec sampleDB empId {}).2.2 freshEmployee
            (by decide) (by decide)).1,
          ?_⟩
  exact ((updateDelete_spec sampleDB empId {}).2.2 freshEmployee
    (by decide) (by decide)).2.2.2.2.2 (by decide)

/-! ## C8: vehicle listing resolves driver names -/

/-- C8: GET `/vehicles` returns one record per stored vehicle, in order;
a vehicle with a present driver reference that resolves to a stored
employee carries that employee's current full name, and a vehicle with no
driver reference carries a null driver field. -/
theorem listVehicles_driver_resolution (db : DB) :
    (listVehicles db).length = db.vehicles.length
    ∧ (∀ (n : Nat) (v : VehicleRec), db.vehicles[n]? = some v →
        ∃ pv, (listVehicles db)[n]? = some pv
          ∧ pv.vin = v.vin
          ∧ (v.driver = none → pv.driver = none)
          ∧ (∀ d e, v.driver = some d → findEmployee db d = some e →
              pv.driver = some (e.id, e.fullName))) := by
  constructor
  · simp [listVehicles]
  · intro n v hv
    refine ⟨populateDriver db v, ?_, rfl, ?_, ?_⟩
    · simp [listVehicles, List.getElem?_map, hv]
    · intro hnone
      simp [populateDriver, hnone]
    · intro d e hd he
      simp [populateDriver, hd, he]

/-- Witness for C8: in the sample store, the first vehicle's driver
resolves to employee "Alice" and the driverless second vehicle carries a
null driver. -/
theorem listVehicles_driver_resolution_witness :
    (∃ pv, (listVehicles sampleDB)[0]? = some pv
      ∧ pv.driver = some (empId2, "Alice"))
    ∧ (∃ pv, (listVehicles sampleDB)[1]? = some pv ∧ pv.driver = none) := by
  constructor
  · obtain ⟨pv, h1, -, -, h4⟩ :=
      (listVehicles_driver_resolution sampleDB).2 0 sampleVehicle (by decide)
    have hres := h4 empId2 secondEmployee (by decide) (by decide)
    exact ⟨pv, h1, by simpa [secondEmployee, freshEmployee, empId2] using hres⟩
  · obtain ⟨pv, h1, -, h3, -⟩ :=
      (listVehicles_driver_resolution sampleDB).2 1 driverlessVehicle (by decide)
    exact ⟨pv, h1, h3 (by decide)⟩

/-! ## C9: the award is frame-preserving -/

/-- C9: a successful award changes only the target employee's points
total, points history and modification timestamp: every other field of
that employee, every other employee record (positionally), and the whole
vehicles collection are unchanged. -/
theorem addPoints_frame (db : DB) (id : String) (p : Int) (r : String)
    (e : EmployeeRec)
    (hid : isValidObjectId id = true)
    (hf : findEmployee db id = some e)
    (hp : 0 < p) (hr : r ≠ "") :
    ∃ e', (addPoints db id (some (.jnum (.num p))) (some (.jstr r))).1 = .ok e'
      ∧ e'.id = e.id
      ∧ e'.staffNumber = e.staffNumber
      ∧ e'.fullName = e.fullName
      ∧ e'.identityNumber = e.identityNumber
      ∧ e'.qualifications = e.qualifications
      ∧ e'.position = e.position
      ∧ e'.salary = e.salary
      ∧ e'.contractStatus = e.contractStatus
      ∧ e'.academicTraining = e.academicTraining
      ∧ e'.professionalTraining = e.professionalTraining
      ∧ e'.createdAt = e.createdAt
      ∧ (addPoints db id (some (.jnum (.num p))) (some (.jstr r))).2.vehicles
          = db.vehicles
      ∧ (addPoints db id (some (.jnum (.num p))) (some (.jstr r))).2.employees.length
          = db.employees.length
      ∧ (∀ (n : Nat) (x : EmployeeRec), db.employees[n]? = some x → x.id ≠ id →
          (addPoints db id (some (.jnum (.num p))) (some (.jstr r))).2.employees[n]?
            = some x) := by
  have h := addPoints_ok db id p r e hid hf hp hr
  refine ⟨{ e with
      points := e.points.add (.num p),
      pointsHistory := e.pointsHistory ++ [⟨.num p, r, db.time⟩],
      updatedAt := db.time },
    ?_, rfl, rfl, rfl, rfl, rfl, rfl, rfl, rfl, rfl, rfl, rfl, ?_, ?_, ?_⟩
  · rw [h]
  · rw [h]
    rfl
  · rw [h]
    simp [replaceEmployee]
  · intro n x hx hne
    rw [h]
    have hxb : (x.id == id) = false := by simpa using hne
    simp only [replaceEmployee, List.getElem?_map, hx, Option.map_some', hxb,
      Bool.false_eq_true, if_false]

/-- Witness for C9: awarding 5 points to the first sample employee leaves
their staff number and salary intact, keeps the store's vehicles, and
leaves the second employee's record untouched. -/
theorem addPoints_frame_witness :
    ∃ e', (addPoints sampleDB empId (some (.jnum (.num 5))) (some (.jstr "w"))).1
        = .ok e'
      ∧ e'.staffNumber = "E001"
      ∧ e'.salary = .num 1000
      ∧ (addPoints sampleDB empId (some (.jnum (.num 5))) (some (.jstr "w"))).2.vehicles
          = sampleDB.vehicles
      ∧ (addPoints sampleDB empId (some (.jnum (.num 5))) (some (.jstr "w"))).2.employees[1]?
          = some secondEmployee := by
  obtain ⟨e', hok, -, hsn, -, -, -, -, hsal, -, -, -, -, hveh, -, hother⟩ :=
    addPoints_frame sampleDB empId 5 "w" freshEmployee
      (by decide) (by decide) (by decide) (by decide)
  exact ⟨e', hok, by simpa [freshEmployee] using hsn,
    by simpa [freshEmployee] using hsal, hveh,
    hother 1 secondEmployee (by decide) (by decide)⟩

/-! ## C10: update applies fields without re-validation -/

/-- C10: the update handler re-checks nothing: for a well-formed id
matching a stored record it returns 200 and stores whatever the payload
supplies — including a contract status outside the schema's enum and
direct overwrites of the points total and points history, bypassing the
award operation. -/
theorem update_bypasses_validation (db : DB) (id : String) (p : UpdatePayload)
    (e : EmployeeRec) (s : String) (q : JsNum) (hist : List PointsEntry)
    (hid : isValidObjectId id = true)
    (hf : findEmployee db id = some e)
    (hs : p.contractStatus = some s)
    (hq : p.points = some q)
    (hh : p.pointsHistory = some hist) :
    updateEmployee db id p
      = (.ok (applyUpdate e p db.time), replaceEmployee db id (applyUpdate e p db.time))
    ∧ updateStatus (updateEmployee db id p).1 = 200
    ∧ (applyUpdate e p db.time).contractStatus = s
    ∧ (applyUpdate e p db.time).points = q
    ∧ (applyUpdate e p db.time).pointsHistory = hist := by
  have hu : updateEmployee db id p
      = (.ok (applyUpdate e p db.time),
         replaceEmployee db id (applyUpdate e p db.time)) := by
    unfold updateEmployee
    rw [hid, hf]
    rfl
  refine ⟨hu, by rw [hu]; rfl, ?_, ?_, ?_⟩
  · simp [applyUpdate, hs]
  · simp [applyUpdate, hq]
  · simp [applyUpdate, hh]

/-- Witness for C10: setting contract status "suspended" (outside the
enum {active, terminated}) and overwriting points to 999 with an emptied
history is accepted with 200 and stored as given. -/
theorem update_bypasses_validation_witness :
    updateEmployee sampleDB empId
      { contractStatus := some "suspended", points := some (.num 999),
        pointsHistory := some [] }
      = (.ok (applyUpdate freshEmployee
              { contractStatus := some "suspended", points := some (.num 999),
                pointsHistory := some [] } sampleDB.time),
         replaceEmployee sampleDB empId
           (applyUpdate freshEmployee
              { contractStatus := some "suspended", points := some (.num 999),
                pointsHistory := some [] } sampleDB.time))
    ∧ (applyUpdate freshEmployee
        { contractStatus := some "suspended", points := some (.num 999),
          pointsHistory := some [] } sampleDB.time).contractStatus = "suspended"
    ∧ (applyUpdate freshEmployee
        { contractStatus := some "suspended", points := some (.num 999),
          pointsHistory := some [] } sampleDB.time).points = .num 999
    ∧ ("suspended" ≠ "active" ∧ "suspended" ≠ "terminated") := by
  have h := update_bypasses_validation sampleDB empId
    { contractStatus := some "suspended", points := some (.num 999),
      pointsHistory := some [] }
    freshEmployee "suspended" (.num 999) []
    (by decide) (by decide) rfl rfl rfl
  exact ⟨h.1, h.2.2.1, h.2.2.2.1, by decide, by decide⟩
